import Mathlib

/-!
Shallow embedding of the fiwGAN training code (`train_fiwgan.py` and
`cinfowavegan.py`) for checking the natural-language specification.

Modelling conventions:
* Machine floats are modelled as real numbers `ℝ`.
* A batched audio tensor of shape `(batch, time, channel)` is a function
  `Nat → Nat → Nat → ℝ`; a per-example score vector of shape `(batch,)` is a
  function `Nat → ℝ`.  Shapes are carried as explicit `Nat` arguments where an
  operation needs them (for reductions and padding).
* Randomness (Bernoulli draws, uniform draws, the phase-shuffle phase) is
  modelled by passing the drawn values as explicit arguments.
* Python name-resolution failures (`NameError` on a never-assigned global,
  `UnboundLocalError` on a local read before assignment) are modelled by an
  explicit `PyErr` error value in an `Except` result.
-/

noncomputable section

open Finset in
/-- Model of `tf.reduce_mean` over a length-`n` vector. -/
def tfReduceMean (n : Nat) (v : Nat → ℝ) : ℝ :=
  (∑ i in range n, v i) / n

/-- Model of `tf.nn.sigmoid_cross_entropy_with_logits(labels=z, logits=x)`,
using the formula from the TensorFlow documentation:
`max(x, 0) - x * z + log(1 + exp(-abs(x)))`. -/
def sigmoidCrossEntropyWithLogits (z x : ℝ) : ℝ :=
  max x 0 - x * z + Real.log (1 + Real.exp (-|x|))

/-- Model of `tf.nn.sigmoid`: `sigmoid x = 1 / (1 + exp (-x))`. -/
def tfSigmoid (x : ℝ) : ℝ :=
  1 / (1 + Real.exp (-x))

/-- Embeds `lrelu` from `cinfowavegan.py`: `tf.maximum(alpha * inputs, inputs)`. -/
def lrelu (inputs alpha : ℝ) : ℝ :=
  max (alpha * inputs) inputs

/-- Model of `tf.nn.relu`. -/
def tfRelu (x : ℝ) : ℝ :=
  max x 0

/-- The `dcgan` branch of `compute_loss` (train_fiwgan.py:40-61), generator
side: `D_G_z_loss = reduce_mean (sigmoid_cross_entropy (logits=D_G_z, labels=real))`
where `real` is the all-ones label vector. -/
def dcganDGzLoss (batchSize : Nat) (DGz : Nat → ℝ) : ℝ :=
  tfReduceMean batchSize (fun i => sigmoidCrossEntropyWithLogits 1 (DGz i))

/-- The `dcgan` branch of `compute_loss` (train_fiwgan.py:40-61), discriminator
side, written sequentially exactly as in the source: start with
`reduce_mean (ce (logits=D_G_z, labels=fake))` where `fake` is all zeros, add
`reduce_mean (ce (logits=D_x, labels=real))`, then divide by `2`. -/
def dcganDLoss (batchSize : Nat) (DGz Dx : Nat → ℝ) : ℝ :=
  let loss0 := tfReduceMean batchSize (fun i => sigmoidCrossEntropyWithLogits 0 (DGz i))
  let loss1 := loss0 + tfReduceMean batchSize (fun i => sigmoidCrossEntropyWithLogits 1 (Dx i))
  loss1 / 2

/-- The `lsgan` branch of `compute_loss` (train_fiwgan.py:62-66), generator side. -/
def lsganDGzLoss (batchSize : Nat) (DGz : Nat → ℝ) : ℝ :=
  tfReduceMean batchSize (fun i => (DGz i - 1) ^ 2)

/-- The `lsgan` branch of `compute_loss` (train_fiwgan.py:62-66), discriminator
side, sequential as in the source. -/
def lsganDLoss (batchSize : Nat) (DGz Dx : Nat → ℝ) : ℝ :=
  let loss0 := tfReduceMean batchSize (fun i => (Dx i - 1) ^ 2)
  let loss1 := loss0 + tfReduceMean batchSize (fun i => (DGz i) ^ 2)
  loss1 / 2

/-- The `wgan` (and `wgan-gp`) generator loss `-reduce_mean D_G_z`
(train_fiwgan.py:68, 94). -/
def wganDGzLoss (batchSize : Nat) (DGz : Nat → ℝ) : ℝ :=
  -tfReduceMean batchSize DGz

/-- The `wgan` (and pre-penalty `wgan-gp`) discriminator loss
`reduce_mean D_G_z - reduce_mean D_x` (train_fiwgan.py:69-70, 101-102). -/
def wganDLoss (batchSize : Nat) (DGz Dx : Nat → ℝ) : ℝ :=
  tfReduceMean batchSize DGz - tfReduceMean batchSize Dx

/-- Embeds the interpolation of the `wgan-gp` branch (train_fiwgan.py:105-111):
`alpha` has shape `[batch, 1, 1]` (one scalar per batch element, broadcast over
time and channel), `differences = G_z - x`, and
`interpolates = x + alpha * differences`. -/
def interpolates (x Gz : Nat → Nat → Nat → ℝ) (alpha : Nat → ℝ) :
    Nat → Nat → Nat → ℝ :=
  fun b t c =>
    let differences := Gz b t c - x b t c
    x b t c + alpha b * differences

open Finset in
/-- Embeds the `slopes` computation of the `wgan-gp` branch
(train_fiwgan.py:117-121): the per-index-0 L2 norm of a rank-3 tensor over its
axes 1 and 2, `sqrt (reduce_sum (square g) (axis=[1,2]))`, where `(d1, d2)` are
the extents of axes 1 and 2. -/
def gpSlopes (d1 d2 : Nat) (g : Nat → Nat → Nat → ℝ) : Nat → ℝ :=
  fun i => Real.sqrt (∑ j in range d1, ∑ k in range d2, (g i j k) ^ 2)

/-- Embeds `gradient_penalty = reduce_mean ((slopes - 1)^2)`
(train_fiwgan.py:122) for a rank-3 gradient tensor of shape `(d0, d1, d2)`. -/
def gradientPenalty (d0 d1 d2 : Nat) (g : Nat → Nat → Nat → ℝ) : ℝ :=
  tfReduceMean d0 (fun i => (gpSlopes d1 d2 g i - 1) ^ 2)

/-- The `wgan-gp` Q loss (train_fiwgan.py:85-92): sigmoid cross-entropy between
the first `num_categ` columns of `z` (labels) and of `Q_G_z` (logits), averaged
with `reduce_mean` over the whole `(batch, num_categ)` slice. -/
def wganGpQLoss (batchSize numCateg : Nat) (z QGz : Nat → Nat → ℝ) : ℝ :=
  tfReduceMean batchSize (fun b =>
    tfReduceMean numCateg (fun j =>
      sigmoidCrossEntropyWithLogits (z b j) (QGz b j)))

/-- Embeds the latent construction of one training step
(train_fiwgan.py:261-271): `categ = random_bernoulli((B, num_categ), 0.5)`
(each draw is `0.` or `1.`), `uniform = random_uniform((B, latent_dim -
num_categ), -1., 1.)`, and `z = concat([categ, uniform], axis=1)`.  The
Bernoulli draws are given as `bern` and the uniform draws as `unif`. -/
def latentZ (numCateg : Nat) (bern : Nat → Nat → Bool) (unif : Nat → Nat → ℝ) :
    Nat → Nat → ℝ :=
  fun b j => if j < numCateg then (if bern b j then 1 else 0) else unif b (j - numCateg)

/-- Output length of a stride-`s` convolution with SAME padding on input
length `len`: `ceil (len / s)`. -/
def convOutLen (len s : Nat) : Nat :=
  (len + s - 1) / s

/-- Left padding used by SAME convolution: total padding
`max ((outLen - 1) * s + k - len) 0`, half of it (rounded down) on the left. -/
def samePadLeft (len k s : Nat) : Int :=
  (max ((((convOutLen len s : Int) - 1) * s + k) - len) 0) / 2

/-- Zero padding of a `(time, channel)` tensor of time extent `len` to all
integer time indices. -/
def zeroPadded (len : Nat) (x : Nat → Nat → ℝ) : Int → Nat → ℝ :=
  fun t c => if 0 ≤ t ∧ t < (len : Int) then x t.toNat c else 0

open Finset in
/-- Model of `tf.keras.layers.Conv1D(filters, k, stride, padding=SAME)` on a
`(time, channel)` tensor with time extent `len` and `cin` input channels,
kernel `w : tap → in-channel → out-channel → ℝ` and bias `b` (Conv1D keeps its
default `use_bias=True`). -/
def conv1dSame (len k s cin : Nat) (w : Nat → Nat → Nat → ℝ) (b : Nat → ℝ)
    (x : Nat → Nat → ℝ) : Nat → Nat → ℝ :=
  fun t co =>
    (∑ j in range k, ∑ ci in range cin,
      w j ci co * zeroPadded len x ((t * s + j : Int) - samePadLeft len k s) ci) + b co

/-- Reflect-mode index for `tf.pad(mode=REFLECT)`: mirrors without repeating
the edge sample. -/
def reflectIdx (len : Nat) (i : Int) : Int :=
  if i < 0 then -i else if (len : Int) ≤ i then 2 * len - 2 - i else i

/-- Embeds `apply_phaseshuffle` from `cinfowavegan.py` (lines 178-192) at a
given drawn `phase` (the code draws `phase` uniformly from `[-rad, rad]`): pad
left by `max phase 0`, right by `max (-phase) 0` in reflect mode, then slice
`[pad_r, pad_r + len)`; so position `t` reads padded position `t + pad_r`,
i.e. original position `t + pad_r - pad_l` reflected into range. -/
def apply_phaseshuffle (len : Nat) (phase : Int) (x : Nat → Nat → ℝ) :
    Nat → Nat → ℝ :=
  fun t c => x (reflectIdx len ((t : Int) + max (-phase) 0 - max phase 0)).toNat c

/-- Learned affine part of `tf.keras.layers.BatchNormalization` (per-channel
scale and shift); the identity when `use_batchnorm` is off, exactly as the
`batchnorm = lambda x: x` branch of the source. -/
def batchnormLayer (useBN : Bool) (scale shift : Nat → ℝ) (x : Nat → Nat → ℝ) :
    Nat → Nat → ℝ :=
  fun t c => if useBN then scale c * x t c + shift c else x t c

/-- Flattening of a `(time, channel)` tensor into a row-major vector, as
`tf.reshape(output, [batch_size, -1])` does per batch element. -/
def flattenTC (ch : Nat) (x : Nat → Nat → ℝ) : Nat → ℝ :=
  fun i => x (i / ch) (i % ch)

/-- Parameters of one convolution layer: kernel and bias. -/
structure ConvParams where
  w : Nat → Nat → Nat → ℝ
  b : Nat → ℝ

/-- Learned parameters of one `WaveGANDiscriminator` instance: the six
convolution layers, the per-layer batchnorm affine parameters, and the final
dense layer producing a single logit. -/
structure DiscParams where
  conv0 : ConvParams
  conv1 : ConvParams
  conv2 : ConvParams
  conv3 : ConvParams
  conv4 : ConvParams
  conv5 : ConvParams
  bnScale : Nat → Nat → ℝ
  bnShift : Nat → Nat → ℝ
  dense_w : Nat → ℝ
  dense_b : ℝ

/-- Embeds `WaveGANDiscriminator` from `cinfowavegan.py` (lines 201-288) on one
batch element (a `(time, channel)` tensor; the layers act on each batch element
independently).  `phase i` is the phase drawn by the `i`-th phase-shuffle call
site.  Mirrors the source: five stride-4 SAME convolutions with `lrelu`
(batchnorm on layers 1-4, phase shuffle after layers 0-3 when
`phaseshuffle_rad > 0`), an extra layer for slice lengths 32768 and 65536,
flatten, a single-logit dense layer, and finally `tf.nn.sigmoid` applied
unconditionally (line 284). -/
def WaveGANDiscriminator (sliceLen nch kernelLen dim : Nat)
    (useBatchnorm : Bool) (phaseshuffleRad : Nat) (phase : Nat → Int)
    (p : DiscParams) (x : Nat → Nat → ℝ) : ℝ :=
  let ps := fun (i len : Nat) (y : Nat → Nat → ℝ) =>
    if 0 < phaseshuffleRad then apply_phaseshuffle len (phase i) y else y
  let bn := fun (i : Nat) (y : Nat → Nat → ℝ) =>
    batchnormLayer useBatchnorm (p.bnScale i) (p.bnShift i) y
  let len1 := convOutLen sliceLen 4
  let out0 := ps 0 len1 (fun t c =>
    lrelu (conv1dSame sliceLen kernelLen 4 nch p.conv0.w p.conv0.b x t c) 0.2)
  let len2 := convOutLen len1 4
  let out1 := ps 1 len2 (fun t c =>
    lrelu (bn 1 (conv1dSame len1 kernelLen 4 dim p.conv1.w p.conv1.b out0) t c) 0.2)
  let len3 := convOutLen len2 4
  let out2 := ps 2 len3 (fun t c =>
    lrelu (bn 2 (conv1dSame len2 kernelLen 4 (dim * 2) p.conv2.w p.conv2.b out1) t c) 0.2)
  let len4 := convOutLen len3 4
  let out3 := ps 3 len4 (fun t c =>
    lrelu (bn 3 (conv1dSame len3 kernelLen 4 (dim * 4) p.conv3.w p.conv3.b out2) t c) 0.2)
  let len5 := convOutLen len4 4
  let out4 := fun t c =>
    lrelu (bn 4 (conv1dSame len4 kernelLen 4 (dim * 8) p.conv4.w p.conv4.b out3) t c) 0.2
  let len6 := convOutLen len5 4
  let out5 := fun t c =>
    lrelu (bn 5 (conv1dSame len5 kernelLen 4 (dim * 16) p.conv5.w p.conv5.b out4) t c) 0.2
  let lenF := if sliceLen = 32768 then len6 * (dim * 32)
    else if sliceLen = 65536 then len6 * (dim * 32) else len5 * (dim * 16)
  let outF := if sliceLen = 32768 then flattenTC (dim * 32) out5
    else if sliceLen = 65536 then flattenTC (dim * 32) out5
    else flattenTC (dim * 16) out4
  let logit := (∑ i in Finset.range lenF, p.dense_w i * outF i) + p.dense_b
  tfSigmoid logit

theorem tfSigmoid_pos (x : ℝ) : 0 < tfSigmoid x := by
  unfold tfSigmoid
  positivity

theorem tfSigmoid_lt_one (x : ℝ) : tfSigmoid x < 1 := by
  unfold tfSigmoid
  rw [div_lt_one (by positivity)]
  linarith [Real.exp_pos (-x)]

theorem tfSigmoid_injective : Function.Injective tfSigmoid := by
  intro a b hab
  unfold tfSigmoid at hab
  field_simp at hab
  linarith

/-- C3: the discriminator as written applies `tf.nn.sigmoid` to its final
logit unconditionally (cinfowavegan.py:284) — it takes no loss-variant input at
all — so for every configuration and every input its score lies strictly
inside `(0, 1)`.  This contradicts the claim (and the function docstring,
"linear output") that the raw unbounded score is used for the wgan and wgan-gp
variants: no unbounded score is ever produced. -/
theorem discriminator_output_always_squashed (sliceLen nch kernelLen dim : Nat)
    (useBatchnorm : Bool) (rad : Nat) (phase : Nat → Int) (p : DiscParams)
    (x : Nat → Nat → ℝ) :
    0 < WaveGANDiscriminator sliceLen nch kernelLen dim useBatchnorm rad phase p x ∧
    WaveGANDiscriminator sliceLen nch kernelLen dim useBatchnorm rad phase p x < 1 := by
  unfold WaveGANDiscriminator
  exact ⟨tfSigmoid_pos _, tfSigmoid_lt_one _⟩

/-- Embeds the three discriminator scoring calls of one training step: the
step builds `D_x_discriminator` from one `WaveGANDiscriminator` instance
(train_fiwgan.py:174-175) and `inter_discriminator` from a second, separate
`WaveGANDiscriminator` instance (train_fiwgan.py:200-201); the step then
computes `D_G_z = D_x_discriminator(G_z)` (line 277), `D_x =
D_x_discriminator(dataset)` (line 280), and `D_interp =
inter_discriminator(interpolates)` (compute_loss, line 113).  `pD` holds the
parameters of `D_x_discriminator` and `pInter` those of `inter_discriminator`;
each forward call draws its own phase-shuffle phases. -/
def stepScores (sliceLen nch kernelLen dim : Nat) (useBatchnorm : Bool)
    (rad : Nat) (phaseFake phaseReal phaseInterp : Nat → Int)
    (pD pInter : DiscParams) (dataset Gz itp : Nat → Nat → Nat → ℝ) :
    (Nat → ℝ) × (Nat → ℝ) × (Nat → ℝ) :=
  let DGz := fun bI =>
    WaveGANDiscriminator sliceLen nch kernelLen dim useBatchnorm rad phaseFake pD (Gz bI)
  let Dx := fun bI =>
    WaveGANDiscriminator sliceLen nch kernelLen dim useBatchnorm rad phaseReal pD (dataset bI)
  let DInterp := fun bI =>
    WaveGANDiscriminator sliceLen nch kernelLen dim useBatchnorm rad phaseInterp pInter (itp bI)
  (DGz, Dx, DInterp)

/-- A convolution layer with all-zero kernel and bias. -/
def zeroConv : ConvParams :=
  ⟨fun _ _ _ => 0, fun _ => 0⟩

/-- Concrete discriminator parameters: everything zero. -/
def discParamsA : DiscParams :=
  ⟨zeroConv, zeroConv, zeroConv, zeroConv, zeroConv, zeroConv,
   fun _ _ => 0, fun _ _ => 0, fun _ => 0, 0⟩

/-- Concrete discriminator parameters: everything zero except the final dense
bias, which is 1. -/
def discParamsB : DiscParams :=
  ⟨zeroConv, zeroConv, zeroConv, zeroConv, zeroConv, zeroConv,
   fun _ _ => 0, fun _ _ => 0, fun _ => 0, 1⟩

theorem disc_eval_zero_weights (b0 : ℝ) (x : Nat → Nat → ℝ) :
    WaveGANDiscriminator 1 1 1 1 false 0 (fun _ => 0)
      ⟨zeroConv, zeroConv, zeroConv, zeroConv, zeroConv, zeroConv,
       fun _ _ => 0, fun _ _ => 0, fun _ => 0, b0⟩ x = tfSigmoid b0 := by
  unfold WaveGANDiscriminator
  simp [zeroConv]

/-- Counterexample to C4: in the step embedded from the source, the
"interpolate" score is produced by `inter_discriminator`, a second
discriminator model with its own parameters, not by the model that scores the
real and fake batches.  Concretely, with `D_x_discriminator` parameters all
zero and `inter_discriminator` parameters all zero except a final dense bias
of 1, the interpolate score of batch element 0 differs from the score the
shared-weights discriminator would give on the same interpolated input. -/
theorem stepScores_interp_separate_params :
    (stepScores 1 1 1 1 false 0 (fun _ => 0) (fun _ => 0) (fun _ => 0)
        discParamsA discParamsB (fun _ _ _ => 0) (fun _ _ _ => 0)
        (fun _ _ _ => 0)).2.2 0 ≠
      WaveGANDiscriminator 1 1 1 1 false 0 (fun _ => 0) discParamsA
        ((fun _ _ _ => (0 : ℝ)) 0) := by
  show WaveGANDiscriminator 1 1 1 1 false 0 (fun _ => 0) discParamsB (fun _ _ => 0) ≠
    WaveGANDiscriminator 1 1 1 1 false 0 (fun _ => 0) discParamsA (fun _ _ => 0)
  unfold discParamsA discParamsB
  rw [disc_eval_zero_weights, disc_eval_zero_weights]
  intro h
  have := tfSigmoid_injective h
  norm_num at this

/-- C4 (amended): within one training step the "real" and "fake" scores are
both computed with the single parameter set of `D_x_discriminator`, with no
parameter mutation between the forward calls (the step is a pure function of
that parameter set), and they are invariant under the parameters of
`inter_discriminator`; the "interpolate" score, however, is computed by
`inter_discriminator`, a second, separately constructed discriminator with its
own parameters. -/
theorem stepScores_real_fake_share_D_params (sliceLen nch kernelLen dim : Nat)
    (useBatchnorm : Bool) (rad : Nat) (phaseFake phaseReal phaseInterp : Nat → Int)
    (pD pInter pInter2 : DiscParams) (dataset Gz itp : Nat → Nat → Nat → ℝ) :
    ((stepScores sliceLen nch kernelLen dim useBatchnorm rad phaseFake phaseReal
        phaseInterp pD pInter dataset Gz itp).1 = fun bI =>
          WaveGANDiscriminator sliceLen nch kernelLen dim useBatchnorm rad
            phaseFake pD (Gz bI)) ∧
    ((stepScores sliceLen nch kernelLen dim useBatchnorm rad phaseFake phaseReal
        phaseInterp pD pInter dataset Gz itp).2.1 = fun bI =>
          WaveGANDiscriminator sliceLen nch kernelLen dim useBatchnorm rad
            phaseReal pD (dataset bI)) ∧
    ((stepScores sliceLen nch kernelLen dim useBatchnorm rad phaseFake phaseReal
        phaseInterp pD pInter dataset Gz itp).1 =
      (stepScores sliceLen nch kernelLen dim useBatchnorm rad phaseFake phaseReal
        phaseInterp pD pInter2 dataset Gz itp).1) ∧
    ((stepScores sliceLen nch kernelLen dim useBatchnorm rad phaseFake phaseReal
        phaseInterp pD pInter dataset Gz itp).2.1 =
      (stepScores sliceLen nch kernelLen dim useBatchnorm rad phaseFake phaseReal
        phaseInterp pD pInter2 dataset Gz itp).2.1) ∧
    ((stepScores sliceLen nch kernelLen dim useBatchnorm rad phaseFake phaseReal
        phaseInterp pD pInter dataset Gz itp).2.2 = fun bI =>
          WaveGANDiscriminator sliceLen nch kernelLen dim useBatchnorm rad
            phaseInterp pInter (itp bI)) :=
  ⟨rfl, rfl, rfl, rfl, rfl⟩

/-- Generator upsample strategy; the argparse choices restrict
`--wavegan_genr_upsample` to exactly these two values. -/
inductive Upsample where
  | zeros : Upsample
  | nn : Upsample

/-- Zero-insertion upsampling by a factor `s` along time (the effect of a
stride-`s` transposed convolution before its kernel is applied). -/
def upsampleZeros (s : Nat) (x : Nat → Nat → ℝ) : Nat → Nat → ℝ :=
  fun t c => if t % s = 0 then x (t / s) c else 0

/-- Nearest-neighbour upsampling by a factor `s` along time, the effect of
`tf.image.resize(method=NEAREST_NEIGHBOR)` to width `w * s`. -/
def upsampleNN (s : Nat) (x : Nat → Nat → ℝ) : Nat → Nat → ℝ :=
  fun t c => x (t / s) c

/-- Embeds `conv1d_transpose` from `cinfowavegan.py` (lines 4-31): for
`upsample='zeros'` a `Conv2DTranspose` with strides `(1, s)` and SAME padding,
modelled as zero-insertion upsampling to length `len * s` followed by a
stride-1 SAME convolution; for `upsample='nn'` a nearest-neighbour resize
followed by a stride-1 SAME `Conv1D`, exactly as in the source.  Both keras
layers keep their default `use_bias=True`, so the layer bias is `b`. -/
def conv1d_transpose (upsample : Upsample) (len k s cin : Nat)
    (w : Nat → Nat → Nat → ℝ) (b : Nat → ℝ) (x : Nat → Nat → ℝ) :
    Nat → Nat → ℝ :=
  match upsample with
  | .zeros => conv1dSame (len * s) k 1 cin w b (upsampleZeros s x)
  | .nn => conv1dSame (len * s) k 1 cin w b (upsampleNN s x)

/-- Learned parameters of one `WaveGANGenerator` instance: the initial dense
layer, the (up to six) transposed-convolution layers, and the per-call-site
batchnorm affine parameters. -/
structure GenParams where
  dense_w : Nat → Nat → ℝ
  dense_b : Nat → ℝ
  tconv0 : ConvParams
  tconv1 : ConvParams
  tconv2 : ConvParams
  tconv3 : ConvParams
  tconv4 : ConvParams
  tconv5 : ConvParams
  bnScale : Nat → Nat → ℝ
  bnShift : Nat → Nat → ℝ

open Finset in
/-- Embeds `WaveGANGenerator` from `cinfowavegan.py` (lines 40-171) on one
batch element.  Mirrors the source: a dense layer to `4*4*dim*dim_mul`
features reshaped to `[16, dim*dim_mul]` with batchnorm and relu, four
stride-4 transposed convolutions halving `dim_mul` each time (batchnorm and
relu after each), then per `slice_len` branch (the source asserts `slice_len ∈
{16384, 32768, 65536}`): for 16384 one final transposed convolution to `nch`
channels followed by `tanh`; for 32768 an extra `dim`-channel layer with
batchnorm and relu then a final stride-2 layer to `nch` and `tanh`; for 65536
the same with a final stride-4 layer.  The train-mode batchnorm moving-average
bookkeeping (lines 160-169) wraps the output in `tf.identity` and does not
change its value. -/
def WaveGANGenerator (sliceLen nch kernelLen dim latentDim : Nat)
    (useBatchnorm : Bool) (upsample : Upsample) (p : GenParams)
    (z : Nat → ℝ) : Nat → Nat → ℝ :=
  let dimMul := if sliceLen = 16384 then 16 else 32
  let bn := fun (i : Nat) (y : Nat → Nat → ℝ) =>
    batchnormLayer useBatchnorm (p.bnScale i) (p.bnShift i) y
  let dense := fun f => (∑ i in range latentDim, z i * p.dense_w i f) + p.dense_b f
  let y0 := fun t c => tfRelu (bn 0 (fun tt cc => dense (tt * (dim * dimMul) + cc)) t c)
  let y1 := fun t c => tfRelu (bn 1 (conv1d_transpose upsample 16 kernelLen 4
    (dim * dimMul) p.tconv0.w p.tconv0.b y0) t c)
  let y2 := fun t c => tfRelu (bn 2 (conv1d_transpose upsample 64 kernelLen 4
    (dim * dimMul / 2) p.tconv1.w p.tconv1.b y1) t c)
  let y3 := fun t c => tfRelu (bn 3 (conv1d_transpose upsample 256 kernelLen 4
    (dim * dimMul / 4) p.tconv2.w p.tconv2.b y2) t c)
  let y4 := fun t c => tfRelu (bn 4 (conv1d_transpose upsample 1024 kernelLen 4
    (dim * dimMul / 8) p.tconv3.w p.tconv3.b y3) t c)
  if sliceLen = 16384 then
    fun t c => Real.tanh (conv1d_transpose upsample 4096 kernelLen 4
      (dim * dimMul / 16) p.tconv4.w p.tconv4.b y4 t c)
  else if sliceLen = 32768 then
    let y5 := fun t c => tfRelu (bn 5 (conv1d_transpose upsample 4096 kernelLen 4
      (dim * dimMul / 16) p.tconv4.w p.tconv4.b y4) t c)
    fun t c => Real.tanh (conv1d_transpose upsample 16384 kernelLen 2
      dim p.tconv5.w p.tconv5.b y5 t c)
  else if sliceLen = 65536 then
    let y5 := fun t c => tfRelu (bn 5 (conv1d_transpose upsample 4096 kernelLen 4
      (dim * dimMul / 16) p.tconv4.w p.tconv4.b y4) t c)
    fun t c => Real.tanh (conv1d_transpose upsample 16384 kernelLen 4
      dim p.tconv5.w p.tconv5.b y5 t c)
  else
    y4

/-- Embeds the generator as built by `train` (train_fiwgan.py:158-166): the
`WaveGANGenerator` output, optionally followed (when `--wavegan_genr_pp` is
set) by the post-processing filter `Conv1D(1, pp_len, use_bias=False,
padding='same')` with kernel `ppW` (no bias, hence the zero bias function). -/
def generatorWithPP (genrPP : Bool) (ppLen : Nat) (ppW : Nat → Nat → Nat → ℝ)
    (sliceLen nch kernelLen dim latentDim : Nat) (useBatchnorm : Bool)
    (upsample : Upsample) (p : GenParams) (z : Nat → ℝ) : Nat → Nat → ℝ :=
  let Gz := WaveGANGenerator sliceLen nch kernelLen dim latentDim useBatchnorm upsample p z
  if genrPP then conv1dSame sliceLen ppLen 1 nch ppW (fun _ => 0) Gz else Gz

theorem tanh_mem_Icc (x : ℝ) : Real.tanh x ∈ Set.Icc (-1 : ℝ) 1 := by
  have hc := Real.cosh_pos x
  have h1 : Real.sinh x < Real.cosh x := Real.sinh_lt_cosh x
  have h2 : -Real.cosh x < Real.sinh x := by
    have h := Real.sinh_lt_cosh (-x)
    rw [Real.sinh_neg, Real.cosh_neg] at h
    linarith
  rw [Real.tanh_eq_sinh_div_cosh]
  constructor
  · rw [le_div_iff hc]; linarith
  · rw [div_le_one hc]; linarith

theorem tanh_1024_gt_half : (1 / 2 : ℝ) < Real.tanh 1024 := by
  have hA : (3 : ℝ) < Real.exp 1024 := by
    have h2 : Real.exp 2 ≤ Real.exp 1024 := Real.exp_le_exp.mpr (by norm_num)
    have he : Real.exp 2 = Real.exp 1 * Real.exp 1 := by
      rw [← Real.exp_add]; norm_num
    nlinarith [Real.exp_one_gt_d9]
  have hB : Real.exp (-1024 : ℝ) < 1 := by
    have h := Real.exp_lt_exp.mpr (show (-1024 : ℝ) < 0 by norm_num)
    simpa using h
  rw [Real.tanh_eq_sinh_div_cosh, Real.sinh_eq, Real.cosh_eq]
  have hc : (0 : ℝ) < (Real.exp 1024 + Real.exp (-1024 : ℝ)) / 2 := by positivity
  rw [lt_div_iff hc]
  linarith [Real.exp_pos (-1024 : ℝ)]

/-- A convolution layer with all-one kernel and zero bias. -/
def onesConv : ConvParams :=
  ⟨fun _ _ _ => 1, fun _ => 0⟩

/-- Concrete generator parameters: dense weights 1, all transposed-convolution
kernels 1, all biases 0, batchnorm parameters 0. -/
def genParamsOnes : GenParams :=
  ⟨fun _ _ => 1, fun _ => 0, onesConv, onesConv, onesConv, onesConv, onesConv,
   onesConv, fun _ _ => 0, fun _ _ => 0⟩

theorem convOutLen_stride_one (len : Nat) : convOutLen len 1 = len := by
  unfold convOutLen
  omega

theorem samePadLeft_k1_s1 (len : Nat) : samePadLeft len 1 1 = 0 := by
  unfold samePadLeft
  rw [convOutLen_stride_one]
  omega

open Finset in
theorem conv1dSame_k1_s1_at_zero (len cin : Nat) (hlen : 0 < len)
    (w : Nat → Nat → Nat → ℝ) (b : Nat → ℝ) (x : Nat → Nat → ℝ) (co : Nat) :
    conv1dSame len 1 1 cin w b x 0 co =
      (∑ ci in range cin, w 0 ci co * x 0 ci) + b co := by
  unfold conv1dSame
  rw [samePadLeft_k1_s1]
  have hl : (0 : Int) < len := by exact_mod_cast hlen
  simp [zeroPadded, hl]
  intro h
  exact absurd h hlen.ne'

open Finset in
theorem conv1d_transpose_zeros_k1_at_zero (len s cin : Nat) (hlen : 0 < len * s)
    (w : Nat → Nat → Nat → ℝ) (b : Nat → ℝ) (x : Nat → Nat → ℝ) (co : Nat) :
    conv1d_transpose .zeros len 1 s cin w b x 0 co =
      (∑ ci in range cin, w 0 ci co * x 0 ci) + b co := by
  show conv1dSame (len * s) 1 1 cin w b (upsampleZeros s x) 0 co = _
  rw [conv1dSame_k1_s1_at_zero _ _ hlen]
  simp [upsampleZeros]

set_option maxHeartbeats 1600000 in
theorem gen_eval_ones :
    WaveGANGenerator 16384 1 1 1 1 false .zeros genParamsOnes (fun _ => 1) 0 0 =
      Real.tanh 1024 := by
  unfold WaveGANGenerator genParamsOnes onesConv
  norm_num [conv1d_transpose_zeros_k1_at_zero, batchnormLayer, tfRelu,
    Finset.sum_range_succ]

theorem gen_pp_eval_ones :
    generatorWithPP true 1 (fun _ _ _ => 4) 16384 1 1 1 1 false .zeros
      genParamsOnes (fun _ => 1) 0 0 = 4 * Real.tanh 1024 := by
  unfold generatorWithPP
  norm_num [conv1dSame_k1_s1_at_zero, Finset.sum_range_succ, gen_eval_ones]

/-- Counterexample to C6: with the post-processing filter enabled the final
layer is an unconstrained linear convolution of the tanh output, so the output
is not confined to `[-1, 1]`.  Concretely, for slice length 16384, `dim = 1`,
kernel length 1, one latent dimension, all generator weights 1 (biases 0),
latent input `z = 1`, and a length-1 post-processing kernel with weight 4, the
output sample at position (0, 0) is `4 * tanh 1024 > 1`. -/
theorem generator_pp_output_outside_bounds :
    ¬ (generatorWithPP true 1 (fun _ _ _ => 4) 16384 1 1 1 1 false .zeros
        genParamsOnes (fun _ => 1) 0 0 ∈ Set.Icc (-1 : ℝ) 1) := by
  rw [Set.mem_Icc, gen_pp_eval_ones]
  intro h
  linarith [tanh_1024_gt_half, h.2]

/-- C6 (amended): with the post-processing filter disabled — the default
configuration — every value of the generator output lies in `[-1, 1]` for
every latent input, every parameter set, every upsample strategy, and every
admissible slice length (the source asserts `slice_len ∈ {16384, 32768,
65536}`), because the final activation of each branch is `tanh`.  (When the
post-processing filter is enabled the output is a further linear convolution
of this bounded signal and need not stay in `[-1, 1]`.) -/
theorem generator_output_bounded_without_pp (ppLen : Nat)
    (ppW : Nat → Nat → Nat → ℝ) (sliceLen nch kernelLen dim latentDim : Nat)
    (useBatchnorm : Bool) (upsample : Upsample) (p : GenParams) (z : Nat → ℝ)
    (hs : sliceLen = 16384 ∨ sliceLen = 32768 ∨ sliceLen = 65536) (t c : Nat) :
    generatorWithPP false ppLen ppW sliceLen nch kernelLen dim latentDim
      useBatchnorm upsample p z t c ∈ Set.Icc (-1 : ℝ) 1 := by
  unfold generatorWithPP WaveGANGenerator
  rcases hs with h | h | h <;> subst h <;> simp <;> exact tanh_mem_Icc _

/-- Witness for C6 (amended): the bound holds at the concrete default-like
configuration with slice length 16384 and all-ones parameters, all-zero
latent, at output position (0, 0). -/
theorem generator_output_bounded_without_pp_witness :
    generatorWithPP false 1 (fun _ _ _ => 0) 16384 1 1 1 1 false .zeros
      genParamsOnes (fun _ => 0) 0 0 ∈ Set.Icc (-1 : ℝ) 1 :=
  generator_output_bounded_without_pp 1 (fun _ _ _ => 0) 16384 1 1 1 1 false
    .zeros genParamsOnes (fun _ => 0) (by norm_num) 0 0

/-- Python runtime errors relevant to this program: name-resolution failures
(`NameError`, including its subclass `UnboundLocalError` for a local read
before assignment) and `NotImplementedError`. -/
inductive PyErr where
  | nameError : String → PyErr
  | notImplementedError : PyErr

/-- Embeds `compute_loss` from `train_fiwgan.py` (lines 32-127), all four
branches.  The function's tensor arguments mirror the source signature
(`D_G_z, D_x, x, G_z, inter_discriminator, tape, z, Q_G_z`); the gradient tape
is modelled by the oracle `gradVars`, where `gradVars i` is the gradient of
`D_interp` with respect to `inter_discriminator.variables[i]` and
`(g0d0, g0d1, g0d2)` is the shape of `gradVars 0`; `alpha` holds the uniform
draws of shape `[batch, 1, 1]`.  Name-resolution failures are modelled by
`PyErr`: in the `dcgan` and `lsgan` branches the final
`return D_G_z_loss, D_loss, Q_loss` reads the local `Q_loss`, which is only
ever assigned in the `wgan-gp` branch, so it raises `UnboundLocalError`; in
the `wgan` branch the line `for var in D_vars` reads `D_vars`, which is
assigned nowhere in the module, so it raises `NameError` before the return
line; an unrecognized variant raises `NotImplementedError` (line 125). -/
def compute_loss (wavegan_loss : String) (batchSize numCateg : Nat)
    (DGz Dx : Nat → ℝ) (x Gz : Nat → Nat → Nat → ℝ)
    (interScore : (Nat → Nat → Nat → ℝ) → Nat → ℝ)
    (gradVars : Nat → Nat → Nat → Nat → ℝ) (g0d0 g0d1 g0d2 : Nat)
    (alpha : Nat → ℝ) (z QGz : Nat → Nat → ℝ) :
    Except PyErr (ℝ × ℝ × ℝ) :=
  if wavegan_loss = "dcgan" then
    let D_G_z_loss := dcganDGzLoss batchSize DGz
    let D_loss := dcganDLoss batchSize DGz Dx
    Except.error (.nameError ("Q_loss"))
  else if wavegan_loss = "lsgan" then
    let D_G_z_loss := lsganDGzLoss batchSize DGz
    let D_loss := lsganDLoss batchSize DGz Dx
    Except.error (.nameError ("Q_loss"))
  else if wavegan_loss = "wgan" then
    let D_G_z_loss := wganDGzLoss batchSize DGz
    let D_loss := wganDLoss batchSize DGz Dx
    Except.error (.nameError ("D_vars"))
  else if wavegan_loss = "wgan-gp" then
    let Q_loss := wganGpQLoss batchSize numCateg z QGz
    let D_G_z_loss := wganDGzLoss batchSize DGz
    let D_loss0 := wganDLoss batchSize DGz Dx
    let interp := interpolates x Gz alpha
    let D_interp := interScore interp
    let gradients := gradVars 0
    let gradient_penalty := gradientPenalty g0d0 g0d1 g0d2 gradients
    let D_loss := D_loss0 + 10 * gradient_penalty
    Except.ok (D_G_z_loss, D_loss, Q_loss)
  else
    Except.error .notImplementedError

/-- Embeds the optimizer state of one training step's update phase: the kind
and hyperparameters of each constructed optimizer. -/
inductive OptimizerSpec where
  | adam : ℝ → ℝ → ℝ → OptimizerSpec
  | rmsprop : ℝ → OptimizerSpec

/-- The optimizers bound by `train` (train_fiwgan.py:204-226): `Q_opt` is a
local assigned only in the `wgan-gp` branch, hence `Option`. -/
structure Optimizers where
  G_opt : OptimizerSpec
  D_opt : OptimizerSpec
  Q_opt : Option OptimizerSpec

/-- Embeds the optimizer-construction block of `train`
(train_fiwgan.py:204-226), including all learning rates and betas from the
source (keras Adam keeps its default `beta_2 = 0.999` where the source does
not pass it); an unrecognized variant raises `NotImplementedError`
(line 226). -/
def makeOptimizers (wavegan_loss : String) : Except PyErr Optimizers :=
  if wavegan_loss = "dcgan" then
    Except.ok ⟨.adam (2e-4) 0.5 0.999, .adam (2e-4) 0.5 0.999, none⟩
  else if wavegan_loss = "lsgan" then
    Except.ok ⟨.rmsprop (1e-4), .rmsprop (1e-4), none⟩
  else if wavegan_loss = "wgan" then
    Except.ok ⟨.rmsprop (5e-5), .rmsprop (5e-5), none⟩
  else if wavegan_loss = "wgan-gp" then
    Except.ok ⟨.adam (1e-4) 0.5 0.9, .adam (1e-4) 0.5 0.9, some (.rmsprop (1e-4))⟩
  else
    Except.error .notImplementedError

/-- The per-batch training loop body sequence (train_fiwgan.py:234-310),
abstracted over the outcome `stepResult i` of step `i`; returns how many steps
completed. -/
def runTrainLoop (stepResult : Nat → Except PyErr Unit) : Nat → Except PyErr Nat
  | 0 => Except.ok 0
  | n + 1 =>
    match runTrainLoop stepResult n with
    | .error e => .error e
    | .ok k =>
      match stepResult n with
      | .error e => .error e
      | .ok _ => .ok (k + 1)

/-- Embeds the order of `train` (train_fiwgan.py:130-310): data loading and
model construction, then optimizer construction (lines 204-226), and only then
the epoch/batch loop; so a failure in `makeOptimizers` happens at startup,
before any training step runs. -/
def trainRun (wavegan_loss : String) (stepResult : Nat → Except PyErr Unit)
    (numSteps : Nat) : Except PyErr Nat :=
  match makeOptimizers wavegan_loss with
  | .error e => .error e
  | .ok _ => runTrainLoop stepResult numSteps

/-- Embeds the update phase of one training step for the discriminator
(train_fiwgan.py:273-310): `compute_loss` runs inside the gradient-tape block;
only if it returns are gradients taken and `D_opt.apply_gradients` executed
(modelled by the update oracle `applyD`, which maps the current parameters and
`D_loss` to the updated parameters).  No weight-clipping operation follows the
update anywhere in the live code: `D_clip_weights` is set to `None` (line 272)
and the only `sess.run(D_clip_weights)` is inside the commented-out string
block (lines 335-364). -/
def trainStepD (wavegan_loss : String) (batchSize numCateg : Nat)
    (DGz Dx : Nat → ℝ) (x Gz : Nat → Nat → Nat → ℝ)
    (interScore : (Nat → Nat → Nat → ℝ) → Nat → ℝ)
    (gradVars : Nat → Nat → Nat → Nat → ℝ) (g0d0 g0d1 g0d2 : Nat)
    (alpha : Nat → ℝ) (z QGz : Nat → Nat → ℝ)
    (dParams : DiscParams) (applyD : DiscParams → ℝ → DiscParams) :
    Except PyErr DiscParams :=
  match compute_loss wavegan_loss batchSize numCateg DGz Dx x Gz interScore
      gradVars g0d0 g0d1 g0d2 alpha z QGz with
  | .error e => .error e
  | .ok losses => .ok (applyD dParams losses.2.1)

/-- C5: for every loss variant other than wgan-gp, a training step cannot
complete: `compute_loss` ends in a name-resolution error instead of producing
three loss scalars — `Q_loss` is only bound inside the wgan-gp branch, so the
dcgan and lsgan branches fail at the return statement, and the wgan branch
fails earlier on the never-assigned name `D_vars`. -/
theorem compute_loss_non_wgan_gp_name_error (batchSize numCateg : Nat)
    (DGz Dx : Nat → ℝ) (x Gz : Nat → Nat → Nat → ℝ)
    (interScore : (Nat → Nat → Nat → ℝ) → Nat → ℝ)
    (gradVars : Nat → Nat → Nat → Nat → ℝ) (g0d0 g0d1 g0d2 : Nat)
    (alpha : Nat → ℝ) (z QGz : Nat → Nat → ℝ) :
    compute_loss ("dcgan") batchSize numCateg DGz Dx x Gz interScore gradVars
        g0d0 g0d1 g0d2 alpha z QGz = Except.error (.nameError ("Q_loss")) ∧
    compute_loss ("lsgan") batchSize numCateg DGz Dx x Gz interScore gradVars
        g0d0 g0d1 g0d2 alpha z QGz = Except.error (.nameError ("Q_loss")) ∧
    compute_loss ("wgan") batchSize numCateg DGz Dx x Gz interScore gradVars
        g0d0 g0d1 g0d2 alpha z QGz = Except.error (.nameError ("D_vars")) ∧
    makeOptimizers ("dcgan") = Except.ok ⟨.adam (2e-4) 0.5 0.999,
        .adam (2e-4) 0.5 0.999, none⟩ ∧
    makeOptimizers ("lsgan") = Except.ok ⟨.rmsprop (1e-4), .rmsprop (1e-4), none⟩ ∧
    makeOptimizers ("wgan") = Except.ok ⟨.rmsprop (5e-5), .rmsprop (5e-5), none⟩ := by
  refine ⟨?_, ?_, ?_, ?_, ?_, ?_⟩ <;> simp [compute_loss, makeOptimizers]

/-- C2: under the wgan variant no discriminator update (APPLY) ever completes,
so no post-update clip into `[-0.01, 0.01]` is performed: the step fails inside
`compute_loss` with a `NameError` on `D_vars` before `D_opt.apply_gradients`
can run, for every batch, every parameter set and every optimizer-update
oracle.  (The only code that would run a post-update clip, lines 355-360, sits
inside a commented-out string block and is dead.) -/
theorem wgan_step_never_reaches_apply (batchSize numCateg : Nat)
    (DGz Dx : Nat → ℝ) (x Gz : Nat → Nat → Nat → ℝ)
    (interScore : (Nat → Nat → Nat → ℝ) → Nat → ℝ)
    (gradVars : Nat → Nat → Nat → Nat → ℝ) (g0d0 g0d1 g0d2 : Nat)
    (alpha : Nat → ℝ) (z QGz : Nat → Nat → ℝ)
    (dParams : DiscParams) (applyD : DiscParams → ℝ → DiscParams) :
    trainStepD ("wgan") batchSize numCateg DGz Dx x Gz interScore gradVars
        g0d0 g0d1 g0d2 alpha z QGz dParams applyD =
      Except.error (.nameError ("D_vars")) := by
  simp [trainStepD, compute_loss]

/-- Follows the spec's words (refinement comparison for C1): the wgan-gp
gradient penalty computed from the gradient of the interpolated score with
respect to the interpolated input itself — per-example L2 norm over the
non-batch axes (time and channel), then `mean ((norm - 1)^2)`. -/
def specGradientPenalty (batchSize sliceLen nch : Nat)
    (gradWrtInput : Nat → Nat → Nat → ℝ) : ℝ :=
  tfReduceMean batchSize (fun i =>
    (Real.sqrt (∑ t in Finset.range sliceLen, ∑ c in Finset.range nch,
      (gradWrtInput i t c) ^ 2) - 1) ^ 2)

/-- C1 (the code as written, at a failing input): the wgan-gp branch computes
the penalty from `tape.gradient(D_interp, inter_discriminator.variables)[0]` —
the gradient with respect to the discriminator's first weight variable — not
from the gradient with respect to the interpolated input.  At batch size 1
with all scores zero, a zero gradient for the first variable (shape
`(1, 1, 1)`) and an input gradient of per-example L2 norm exactly 1, the code
returns `D_loss = 0 + 10 * (0 - 1)^2 = 10`, while the spec's formula gives
penalty 0 and hence `D_loss = 0`. -/
theorem wgan_gp_penalty_from_variables_not_input :
    compute_loss ("wgan-gp") 1 1 (fun _ => 0) (fun _ => 0) (fun _ _ _ => 0)
        (fun _ _ _ => 0) (fun _ _ => 0) (fun _ _ _ _ => 0) 1 1 1 (fun _ => 0)
        (fun _ _ => 0) (fun _ _ => 0) =
      Except.ok (0, 10, Real.log 2) ∧
    specGradientPenalty 1 1 1 (fun _ _ _ => 1) = 0 ∧
    (10 : ℝ) ≠
      wganDLoss 1 (fun _ => 0) (fun _ => 0) +
        10 * specGradientPenalty 1 1 1 (fun _ _ _ => 1) := by
  refine ⟨?_, ?_, ?_⟩
  · simp [compute_loss, wganGpQLoss, wganDGzLoss, wganDLoss, tfReduceMean,
      gradientPenalty, gpSlopes, sigmoidCrossEntropyWithLogits, Real.exp_zero]
    norm_num
  · simp [specGradientPenalty, tfReduceMean]
  · simp [specGradientPenalty, wganDLoss, tfReduceMean]

/-- C10: if the configured loss-variant name is not one of dcgan, lsgan, wgan,
wgan-gp, optimizer construction raises `NotImplementedError` and the whole
training run fails with it before any training step has executed, whatever the
steps would have done. -/
theorem invalid_loss_variant_fatal_at_startup (wavegan_loss : String)
    (h1 : wavegan_loss ≠ "dcgan") (h2 : wavegan_loss ≠ "lsgan")
    (h3 : wavegan_loss ≠ "wgan") (h4 : wavegan_loss ≠ "wgan-gp")
    (stepResult : Nat → Except PyErr Unit) (numSteps : Nat) :
    makeOptimizers wavegan_loss = Except.error .notImplementedError ∧
    trainRun wavegan_loss stepResult numSteps =
      Except.error .notImplementedError := by
  have hm : makeOptimizers wavegan_loss = Except.error .notImplementedError := by
    simp [makeOptimizers, h1, h2, h3, h4]
  exact ⟨hm, by simp [trainRun, hm]⟩

/-- Witness for C10: at the concrete unrecognized variant name "began",
training fails with `NotImplementedError` before any of 5 steps runs. -/
theorem invalid_loss_variant_fatal_at_startup_witness :
    makeOptimizers ("began") = Except.error .notImplementedError ∧
    trainRun ("began") (fun _ => Except.ok ()) 5 =
      Except.error .notImplementedError :=
  invalid_loss_variant_fatal_at_startup ("began") (by decide) (by decide)
    (by decide) (by decide) (fun _ => Except.ok ()) 5

/-- C7: under the dcgan variant, `D_loss` equals the mean sigmoid cross-entropy
of `d_fake` against label 0 plus the mean sigmoid cross-entropy of `d_real`
against label 1, the sum divided by 2, and `G_loss` equals the mean sigmoid
cross-entropy of `d_fake` against label 1. -/
theorem dcgan_loss_formula (batchSize : Nat) (DGz Dx : Nat → ℝ) :
    dcganDLoss batchSize DGz Dx =
      (tfReduceMean batchSize (fun i => sigmoidCrossEntropyWithLogits 0 (DGz i)) +
       tfReduceMean batchSize (fun i => sigmoidCrossEntropyWithLogits 1 (Dx i))) / 2 ∧
    dcganDGzLoss batchSize DGz =
      tfReduceMean batchSize (fun i => sigmoidCrossEntropyWithLogits 1 (DGz i)) := by
  constructor
  · rfl
  · rfl

/-- C9: the wgan-gp interpolation `x + alpha * (G_z - x)`, with one alpha
scalar per batch element broadcast across time and channel, equals the real
example exactly where `alpha b = 0` and the fake example exactly where
`alpha b = 1`. -/
theorem interpolates_endpoints (x Gz : Nat → Nat → Nat → ℝ) (alpha : Nat → ℝ)
    (b t c : Nat) :
    (alpha b = 0 → interpolates x Gz alpha b t c = x b t c) ∧
    (alpha b = 1 → interpolates x Gz alpha b t c = Gz b t c) := by
  unfold interpolates
  constructor
  · intro h; simp [h]
  · intro h; simp [h]

/-- Witness for C9: at `x = 5`, `Gz = 9` everywhere and `alpha = fun b => b`,
batch element 0 (alpha 0) interpolates to the real value and batch element 1
(alpha 1) to the fake value. -/
theorem interpolates_endpoints_witness :
    ((fun b : Nat => (b : ℝ)) 0 = 0 ∧
      interpolates (fun _ _ _ => 5) (fun _ _ _ => 9) (fun b => (b : ℝ)) 0 2 3 = 5) ∧
    ((fun b : Nat => (b : ℝ)) 1 = 1 ∧
      interpolates (fun _ _ _ => 5) (fun _ _ _ => 9) (fun b => (b : ℝ)) 1 2 3 = 9) :=
  ⟨⟨by norm_num,
    (interpolates_endpoints (fun _ _ _ => 5) (fun _ _ _ => 9)
      (fun b => (b : ℝ)) 0 2 3).1 (by norm_num)⟩,
   ⟨by norm_num,
    (interpolates_endpoints (fun _ _ _ => 5) (fun _ _ _ => 9)
      (fun b => (b : ℝ)) 1 2 3).2 (by norm_num)⟩⟩

/-- C8: for every batch size `B` and every `num_categ C < latent_dim D`, the
latent sampler gives, in each row, first `C` columns that are each exactly 0 or
1, then `D - C` columns that lie in `[-1, 1]`; the concatenation order is
code-then-continuous (the code bit for column `j < C` and the continuous draw
`j - C` for `C ≤ j < D`). -/
theorem latentZ_shape_and_bounds (numCateg latentDim : Nat)
    (bern : Nat → Nat → Bool) (unif : Nat → Nat → ℝ)
    (hCD : numCateg < latentDim)
    (hU : ∀ b j, unif b j ∈ Set.Ico (-1 : ℝ) 1) (b : Nat) :
    (∀ j, j < numCateg →
      (latentZ numCateg bern unif b j = 0 ∨ latentZ numCateg bern unif b j = 1) ∧
      latentZ numCateg bern unif b j = (if bern b j then 1 else 0)) ∧
    (∀ j, numCateg ≤ j → j < latentDim →
      latentZ numCateg bern unif b j ∈ Set.Icc (-1 : ℝ) 1 ∧
      latentZ numCateg bern unif b j = unif b (j - numCateg)) := by
  constructor
  · intro j hj
    constructor
    · by_cases hb : bern b j
      · right; simp [latentZ, hj, hb]
      · left; simp [latentZ, hj, hb]
    · simp [latentZ, hj]
  · intro j hj _
    have hlt : ¬ j < numCateg := not_lt.mpr hj
    refine ⟨?_, by simp [latentZ, hlt]⟩
    have hmem := hU b (j - numCateg)
    simp only [latentZ, hlt, if_false]
    exact ⟨hmem.1, le_of_lt hmem.2⟩

/-- Witness for C8: with `num_categ = 2 < latent_dim = 4`, Bernoulli draws
alternating and uniform draws constantly `1/2`, the first two columns of row 0
are bits and columns 2 and 3 lie in `[-1, 1]`. -/
theorem latentZ_shape_and_bounds_witness :
    (∀ j, j < 2 →
      (latentZ 2 (fun _ j => j % 2 = 0) (fun _ _ => 1/2) 0 j = 0 ∨
       latentZ 2 (fun _ j => j % 2 = 0) (fun _ _ => 1/2) 0 j = 1) ∧
      latentZ 2 (fun _ j => j % 2 = 0) (fun _ _ => 1/2) 0 j =
        (if (fun _ j => decide (j % 2 = 0)) 0 j then 1 else 0)) ∧
    (∀ j, 2 ≤ j → j < 4 →
      latentZ 2 (fun _ j => j % 2 = 0) (fun _ _ => 1/2) 0 j ∈ Set.Icc (-1 : ℝ) 1 ∧
      latentZ 2 (fun _ j => j % 2 = 0) (fun _ _ => 1/2) 0 j = (fun _ _ => (1/2 : ℝ)) 0 (j - 2)) :=
  latentZ_shape_and_bounds 2 4 (fun _ j => j % 2 = 0) (fun _ _ => 1/2)
    (by norm_num)
    (fun b j => by constructor <;> norm_num) 0
